import Mathlib

/-!
Shallow embedding of the ORT Insight result interpreter (`src/ort-parser.ts`,
`src/types.ts`): the license classifier, the dependency-tree builder, the
statistics and compliance aggregator, and the result-file loader.

JavaScript strings become `String`, arrays become `List`, `undefined`-able
values become `Option`, `Map`/`Record` lookups become functions or
association lists, and JavaScript truthiness on strings (`""` is falsy) is
modelled explicitly by `jsTruthy`.
-/

set_option maxHeartbeats 1000000

namespace ORTInsight

/-- JavaScript `s.includes(sub)`: substring containment on strings. -/
def strIncludes (s sub : String) : Bool :=
  decide (sub.data <:+: s.data)

/-- JavaScript truthiness of a `string | undefined` value:
`undefined` and the empty string are falsy. -/
def jsTruthy : Option String → Bool
  | none => false
  | some s => s ≠ ""

/-- Embeds `Identifier` from `types.ts`: the 4-tuple identifying a project or
package.  The `namespace` field is renamed `namespace_` (Lean keyword). -/
structure Identifier where
  type : String
  namespace_ : String
  name : String
  version : String
deriving DecidableEq, Repr

/-- Embeds `ProcessedDeclaredLicense` from `types.ts` (only `spdx_expression` is
read by the parser; `mapped`/`unmapped` are carried for fidelity). -/
structure ProcessedDeclaredLicense where
  spdx_expression : Option String := none
  mapped : List (String × String) := []
  unmapped : List String := []
deriving DecidableEq, Repr

/-- Embeds `Issue` from `types.ts`. -/
structure Issue where
  timestamp : String := ""
  source : String := ""
  message : String := ""
  severity : String := ""
deriving DecidableEq, Repr

/-- Embeds `Vulnerability` from `types.ts` (reference list and numeric score are
never inspected by the parser; the fields the UI reads are kept). -/
structure Vulnerability where
  id : String := ""
  summary : String := ""
  description : String := ""
  severity : Option String := none
deriving DecidableEq, Repr

/-- Embeds `DependencyReference` from `types.ts`: a child reference carries an
`Identifier` only. -/
structure DependencyReference where
  id : Identifier
deriving DecidableEq, Repr

/-- Embeds `DependencyNode` from `types.ts`. -/
structure DependencyNode where
  id : Identifier
  dependencies : List DependencyReference := []
  issues : List Issue := []
deriving DecidableEq, Repr

/-- Embeds `ScopeDependencies` from `types.ts`. -/
structure ScopeDependencies where
  name : String
  dependencies : List DependencyNode
deriving DecidableEq, Repr

/-- Embeds `Project` from `types.ts` (fields not read by the parser are kept with
defaults so that concrete literals stay readable). -/
structure Project where
  id : Identifier
  definition_file_path : String := ""
  declared_licenses : List String := []
  declared_licenses_processed : ProcessedDeclaredLicense := {}
  homepage_url : String := ""
  scope_dependencies : Option (List ScopeDependencies) := none
deriving DecidableEq, Repr

/-- Embeds `Package` from `types.ts`. -/
structure Package where
  id : Identifier
  purl : String := ""
  declared_licenses : List String := []
  declared_licenses_processed : ProcessedDeclaredLicense := {}
  description : String := ""
  homepage_url : String := ""
deriving DecidableEq, Repr

/-- Embeds `Advisories` from `types.ts`: one advisor's findings for one package.
`vulnerabilities` is `Option` because the code guards
`if (advisory.vulnerabilities)`. -/
structure Advisories where
  advisor : String := ""
  vulnerabilities : Option (List Vulnerability) := none
deriving DecidableEq, Repr

/-- Embeds `AdvisorResult` from `types.ts`: advisories keyed by package-identifier
string (a JS `Record`, modelled as an association list in entry order). -/
structure AdvisorResult where
  advisories : Option (List (String × List Advisories)) := none
deriving DecidableEq, Repr

/-- Embeds `AnalyzerRun` from `types.ts`.  The parser guards each list with
`|| []`, so each is `Option` here. -/
structure AnalyzerRun where
  projects : Option (List Project) := none
  packages : Option (List Package) := none
  issues : Option (List Issue) := none
deriving DecidableEq, Repr

/-- Embeds `AnalyzerResult` from `types.ts`; the code reaches it through
`ortResult.analyzer?.result`, so `result` is `Option`. -/
structure AnalyzerResult where
  start_time : String := ""
  end_time : String := ""
  result : Option AnalyzerRun := none
deriving DecidableEq, Repr

/-- Embeds `ORTResult` from `types.ts` (the scanner section is never read by the
parser; it is carried as an opaque optional marker for fidelity of the
top-level shape). -/
structure ORTResult where
  analyzer : Option AnalyzerResult := none
  advisor : Option AdvisorResult := none
  scanner : Option Unit := none
deriving DecidableEq, Repr

/-- Embeds `LicenseRisk` from `types.ts`: the closed risk enumeration. -/
inductive LicenseRisk where
  | permissive
  | weakCopyleft
  | strongCopyleft
  | unknown
  | proprietary
deriving DecidableEq, Repr

/-- The three configurable license lists read from
`ortInsight.{permissive,weakCopyleft,strongCopyleft}Licenses`; passed
explicitly since the embedding has no global settings store. -/
structure ClassifierConfig where
  permissiveLicenses : List String := []
  weakCopyleftLicenses : List String := []
  strongCopyleftLicenses : List String := []
deriving DecidableEq, Repr

/-- Embeds `ORTParser.getIdentifierKey`. -/
def getIdentifierKey (id : Identifier) : String :=
  id.type ++ ":" ++ id.namespace_ ++ ":" ++ id.name ++ ":" ++ id.version

/-- Embeds `ORTParser.classifyLicenseRisk`.  `if (!license)` catches both
`undefined` and the empty string; list matching is JS `includes`
(substring containment). -/
def classifyLicenseRisk (cfg : ClassifierConfig) (license : Option String) :
    LicenseRisk :=
  if !(jsTruthy license) then .unknown
  else
    let s := license.getD ""
    if cfg.permissiveLicenses.any (fun l => strIncludes s l) then .permissive
    else if cfg.weakCopyleftLicenses.any (fun l => strIncludes s l) then .weakCopyleft
    else if cfg.strongCopyleftLicenses.any (fun l => strIncludes s l) then .strongCopyleft
    else if strIncludes s.toLower "proprietary" then .proprietary
    else .unknown

/-- The fields of `Package | Project` read by `ORTParser.extractLicense`. -/
structure LicenseDecl where
  declared_licenses : List String
  declared_licenses_processed : ProcessedDeclaredLicense
deriving DecidableEq, Repr

def Package.licenseDecl (p : Package) : LicenseDecl :=
  ⟨p.declared_licenses, p.declared_licenses_processed⟩

def Project.licenseDecl (p : Project) : LicenseDecl :=
  ⟨p.declared_licenses, p.declared_licenses_processed⟩

/-- Embeds `ORTParser.extractLicense`: the truthiness test
`if (pkg.declared_licenses_processed?.spdx_expression)` skips an absent or
empty processed expression; the declared-list branch checks only
nonemptiness of the list. -/
def extractLicense (pkg : LicenseDecl) : Option String :=
  if jsTruthy pkg.declared_licenses_processed.spdx_expression then
    pkg.declared_licenses_processed.spdx_expression
  else if pkg.declared_licenses.length > 0 then
    some (String.intercalate " OR " pkg.declared_licenses)
  else
    none

/-- Embeds `DependencyTreeItem` from `types.ts`: the rendered view-model. -/
structure DependencyTreeItem where
  id : Identifier
  label : String
  license : Option String
  risk : LicenseRisk
  children : List DependencyTreeItem
  vulnerabilities : List Vulnerability
  issues : List Issue

/-- Embeds `ORTParser.buildPackageMap`: a JS `Map` built by iterated `set`
(later entries overwrite), modelled as a lookup function. -/
def buildPackageMap (packages : List Package) : String → Option Package :=
  packages.foldl
    (fun m pkg => fun k => if k = getIdentifierKey pkg.id then some pkg else m k)
    (fun _ => none)

/-- Embeds `ORTParser.buildVulnerabilityMap`: advisories flattened per package key;
an entry is stored only when at least one vulnerability was collected. -/
def buildVulnerabilityMap (advisorResult : Option AdvisorResult) :
    String → Option (List Vulnerability) :=
  match advisorResult with
  | none => fun _ => none
  | some a =>
    match a.advisories with
    | none => fun _ => none
    | some entries =>
      entries.foldl
        (fun m e =>
          let allVulns := e.2.flatMap (fun advisory => advisory.vulnerabilities.getD [])
          if allVulns.length > 0 then fun k => if k = e.1 then some allVulns else m k
          else m)
        (fun _ => none)

/-- Embeds `ORTParser.getAllVulnerabilities`: every advisory's vulnerabilities,
flattened in entry order. -/
def getAllVulnerabilities (advisorResult : Option AdvisorResult) :
    List Vulnerability :=
  match advisorResult with
  | none => []
  | some a =>
    match a.advisories with
    | none => []
    | some entries =>
      entries.flatMap (fun e => e.2.flatMap (fun advisory => advisory.vulnerabilities.getD []))

/-- Embeds `ORTParser.buildDependencyItem`: prunes a node whose key is already in
the per-branch visited set, then recurses into each child reference as a
`DependencyNode`-like object with empty `dependencies` and `issues`
(mirroring the `childNode` literal in the source), passing
`branchVisited`, the visited set extended with the node's own key.  (`attach` is only the termination
instrumentation for the recursion.) -/
def buildDependencyItem (cfg : ClassifierConfig)
    (packages : String → Option Package)
    (vulnerabilities : String → Option (List Vulnerability))
    (node : DependencyNode) (visited : List String) :
    Option DependencyTreeItem :=
  let key := getIdentifierKey node.id
  if key ∈ visited then
    none
  else
    let branchVisited := key :: visited
    let pkg := packages key
    let id := match pkg with | some p => p.id | none => node.id
    let license := match pkg with | some p => extractLicense p.licenseDecl | none => none
    let risk := classifyLicenseRisk cfg license
    let children := node.dependencies.attach.filterMap
      (fun x =>
        buildDependencyItem cfg packages vulnerabilities
          { id := x.val.id, dependencies := [], issues := [] } branchVisited)
    some
      { id := id
        label := id.name ++ "@" ++ id.version
        license := license
        risk := risk
        children := children
        vulnerabilities := (vulnerabilities key).getD []
        issues := node.issues }
termination_by node.dependencies.length
decreasing_by
  simp only [List.length_nil]
  exact List.length_pos_of_mem x.2

/-- Embeds `ORTParser.buildProjectItem`: the project root item with one scope
grouping item per dependency scope; each top-level dependency starts with
a fresh empty visited set. -/
def buildProjectItem (cfg : ClassifierConfig) (project : Project)
    (packages : String → Option Package)
    (vulnerabilities : String → Option (List Vulnerability)) :
    DependencyTreeItem :=
  let license := extractLicense project.licenseDecl
  let risk := classifyLicenseRisk cfg license
  let pkgKey := getIdentifierKey project.id
  let children : List DependencyTreeItem :=
    match project.scope_dependencies with
    | none => []
    | some scopes =>
      scopes.map (fun scope =>
        let scopeChildren := scope.dependencies.filterMap
          (fun dep => buildDependencyItem cfg packages vulnerabilities dep [])
        { id := ⟨"", "", scope.name, ""⟩
          label := scope.name ++ " (" ++ toString scopeChildren.length ++ ")"
          license := none
          risk := .unknown
          children := scopeChildren
          vulnerabilities := []
          issues := [] })
  { id := project.id
    label := project.id.name ++ "@" ++ project.id.version ++ " (Project)"
    license := license
    risk := risk
    children := children
    vulnerabilities := (vulnerabilities pkgKey).getD []
    issues := [] }

/-- Embeds `ORTParser.buildDependencyTree`: one item per project; empty when
`analyzer?.result?.projects` is absent. -/
def buildDependencyTree (cfg : ClassifierConfig) (ortResult : ORTResult) :
    List DependencyTreeItem :=
  match ortResult.analyzer.bind (·.result) with
  | none => []
  | some run =>
    match run.projects with
    | none => []
    | some projects =>
      let packages := buildPackageMap (run.packages.getD [])
      let vulnerabilities := buildVulnerabilityMap ortResult.advisor
      projects.map (fun project => buildProjectItem cfg project packages vulnerabilities)

/-- Embeds `LicenseStats` from `types.ts`; `byLicense` is a JS object used as a
string-keyed counter, modelled as an association list in insertion order. -/
structure LicenseStats where
  total : Nat := 0
  permissive : Nat := 0
  weakCopyleft : Nat := 0
  strongCopyleft : Nat := 0
  unknown : Nat := 0
  byLicense : List (String × Nat) := []
deriving DecidableEq, Repr

/-- Embeds `stats.byLicense[license] = (stats.byLicense[license] || 0) + 1`. -/
def bumpLicense : List (String × Nat) → String → List (String × Nat)
  | [], k => [(k, 1)]
  | (k', n) :: rest, k =>
    if k' = k then (k', n + 1) :: rest else (k', n) :: bumpLicense rest k

/-- Total occurrence count recorded in a `byLicense` association list. -/
def sumCounts (m : List (String × Nat)) : Nat :=
  (m.map (fun e => e.2)).sum

/-- One iteration of the `calculateLicenseStats` loop body. -/
def statsStep (cfg : ClassifierConfig) (stats : LicenseStats)
    (pkg : LicenseDecl) : LicenseStats :=
  let license := extractLicense pkg
  let risk := classifyLicenseRisk cfg license
  let stats1 := { stats with total := stats.total + 1 }
  let stats2 :=
    match risk with
    | .permissive => { stats1 with permissive := stats1.permissive + 1 }
    | .weakCopyleft => { stats1 with weakCopyleft := stats1.weakCopyleft + 1 }
    | .strongCopyleft => { stats1 with strongCopyleft := stats1.strongCopyleft + 1 }
    | _ => { stats1 with unknown := stats1.unknown + 1 }
  if jsTruthy license then
    { stats2 with byLicense := bumpLicense stats2.byLicense (license.getD "") }
  else stats2

/-- Embeds `allPackages = [...projects, ...packages]`, reduced to the fields the
loop body reads. -/
def allLicenseDecls (run : AnalyzerRun) : List LicenseDecl :=
  (run.projects.getD []).map Project.licenseDecl
    ++ (run.packages.getD []).map Package.licenseDecl

/-- Embeds `ORTParser.calculateLicenseStats`. -/
def calculateLicenseStats (cfg : ClassifierConfig) (ortResult : ORTResult) :
    LicenseStats :=
  match ortResult.analyzer.bind (·.result) with
  | none => {}
  | some run => (allLicenseDecls run).foldl (statsStep cfg) {}

/-- The `status` union of `ComplianceStatus` in `types.ts`. -/
inductive ComplianceKind where
  | compliant
  | issues
  | critical
  | unknown
deriving DecidableEq, Repr

/-- The `details` record of `ComplianceStatus`. -/
structure ComplianceDetails where
  totalPackages : Nat
  issuesCount : Nat
  vulnerabilitiesCount : Nat
  licenseStats : LicenseStats
deriving DecidableEq, Repr

/-- Embeds `ComplianceStatus` from `types.ts`. -/
structure ComplianceStatus where
  status : ComplianceKind
  message : String
  details : ComplianceDetails
deriving DecidableEq, Repr

/-- Embeds `ortResult.analyzer?.result?.issues || []`. -/
def analyzerIssues (ortResult : ORTResult) : List Issue :=
  ((ortResult.analyzer.bind (·.result)).bind (·.issues)).getD []

/-- Embeds `ORTParser.getComplianceStatus`. -/
def getComplianceStatus (cfg : ClassifierConfig) (ortResult : ORTResult) :
    ComplianceStatus :=
  let licenseStats := calculateLicenseStats cfg ortResult
  let issues := analyzerIssues ortResult
  let vulnerabilities := getAllVulnerabilities ortResult.advisor
  let sm : ComplianceKind × String :=
    if licenseStats.strongCopyleft > 0 then
      (.critical, toString licenseStats.strongCopyleft ++ " strong copyleft license(s) detected")
    else if issues.length > 0 || vulnerabilities.length > 0 then
      (.issues, toString issues.length ++ " issue(s), "
        ++ toString vulnerabilities.length ++ " vulnerability(ies) found")
    else if licenseStats.unknown > 0 then
      (.issues, toString licenseStats.unknown ++ " package(s) with unknown licenses")
    else
      (.compliant, "All dependencies are compliant")
  { status := sm.1
    message := sm.2
    details :=
      { totalPackages := licenseStats.total
        issuesCount := issues.length
        vulnerabilitiesCount := vulnerabilities.length
        licenseStats := licenseStats } }

/-- Embeds `ORTParser.parseResultFile`: `fs.readFileSync` and `JSON.parse` are the
platform's, passed in as explicit effect functions; any failure of either is
rethrown as `Failed to parse ORT result: <cause>`. -/
def parseResultFile (readFile : String → Except String String)
    (jsonParse : String → Except String ORTResult) (filePath : String) :
    Except String ORTResult :=
  match readFile filePath with
  | .error e => .error ("Failed to parse ORT result: " ++ e)
  | .ok content =>
    match jsonParse content with
    | .error e => .error ("Failed to parse ORT result: " ++ e)
    | .ok result => .ok result

/-! ### Concrete fixtures (synthetic inputs used by closed theorems) -/

/-- A configuration resembling the documented default lists. -/
def cfgExample : ClassifierConfig :=
  ⟨["MIT", "Apache-2.0", "BSD", "ISC"], ["LGPL", "MPL"], ["GPL", "AGPL"]⟩

/-- An NPM identifier with the given name. -/
def idOf (n : String) : Identifier :=
  ⟨"NPM", "", n, "1.0.0"⟩

/-- Synthetic cycle: package A depends on B. -/
def nodeCycleA : DependencyNode :=
  { id := idOf "A", dependencies := [⟨idOf "B"⟩] }

/-- Synthetic cycle: package B depends on A. -/
def nodeCycleB : DependencyNode :=
  { id := idOf "B", dependencies := [⟨idOf "A"⟩] }

/-- A node that lists itself as its own child reference. -/
def nodeSelfLoop : DependencyNode :=
  { id := idOf "A", dependencies := [⟨idOf "A"⟩] }

/-- Project whose single scope holds the cyclic pair A ↔ B. -/
def projCycle : Project :=
  { id := idOf "P"
    scope_dependencies := some [⟨"dependencies", [nodeCycleA, nodeCycleB]⟩] }

/-- Analyzer run holding only the cyclic project. -/
def runCycle : AnalyzerRun :=
  { projects := some [projCycle], packages := some [], issues := some [] }

/-- Analysis result holding only the cyclic project. -/
def resultCycle : ORTResult :=
  { analyzer := some ⟨"", "", some runCycle⟩ }

/-- A package declaring a strong-copyleft license. -/
def pkgGPL : Package :=
  { id := idOf "gpl-pkg"
    declared_licenses := ["GPL-3.0-only"]
    declared_licenses_processed := { spdx_expression := some "GPL-3.0-only" } }

/-- Analyzer run holding one strong-copyleft package. -/
def runGPL : AnalyzerRun :=
  { projects := some [], packages := some [pkgGPL], issues := some [] }

/-- Analysis result holding one strong-copyleft package. -/
def resultGPL : ORTResult :=
  { analyzer := some ⟨"", "", some runGPL⟩ }

/-- A package with no declared licenses at all. -/
def pkgNoLicense : Package :=
  { id := idOf "mystery" }

/-- Analyzer run holding one license-less package. -/
def runNoLicense : AnalyzerRun :=
  { projects := some [], packages := some [pkgNoLicense], issues := some [] }

/-- Analysis result holding one license-less package. -/
def resultNoLicense : ORTResult :=
  { analyzer := some ⟨"", "", some runNoLicense⟩ }

/-- License fields whose processed SPDX expression is present but empty. -/
def declEmptySpdx : LicenseDecl :=
  ⟨["MIT"], { spdx_expression := some "" }⟩

/-! ### Unfolding and helper lemmas -/

/-- Plain unfolding equation for `buildDependencyItem`, with the
termination instrumentation (`attach`) eliminated. -/
theorem buildDependencyItem_eq (cfg : ClassifierConfig)
    (packages : String → Option Package)
    (vulnerabilities : String → Option (List Vulnerability))
    (node : DependencyNode) (visited : List String) :
    buildDependencyItem cfg packages vulnerabilities node visited =
      (if getIdentifierKey node.id ∈ visited then none
       else
        let key := getIdentifierKey node.id
        let branchVisited := key :: visited
        let pkg := packages key
        let id := match pkg with | some p => p.id | none => node.id
        let license :=
          match pkg with | some p => extractLicense p.licenseDecl | none => none
        some
          { id := id
            label := id.name ++ "@" ++ id.version
            license := license
            risk := classifyLicenseRisk cfg license
            children := node.dependencies.filterMap
              (fun ref =>
                buildDependencyItem cfg packages vulnerabilities
                  { id := ref.id, dependencies := [], issues := [] } branchVisited)
            vulnerabilities := (vulnerabilities key).getD []
            issues := node.issues }) := by
  rw [buildDependencyItem]
  simp only [List.filterMap_subtype, List.unattach_attach]

/-- A node with no recorded child references builds to a childless item
(or is pruned). -/
theorem buildDependencyItem_leaf (cfg : ClassifierConfig)
    (packages : String → Option Package)
    (vulnerabilities : String → Option (List Vulnerability))
    (i : Identifier) (iss : List Issue) (visited : List String) :
    buildDependencyItem cfg packages vulnerabilities
        { id := i, dependencies := [], issues := iss } visited =
      (if getIdentifierKey i ∈ visited then none
       else
        let pkg := packages (getIdentifierKey i)
        let id := match pkg with | some p => p.id | none => i
        let license :=
          match pkg with | some p => extractLicense p.licenseDecl | none => none
        some
          { id := id
            label := id.name ++ "@" ++ id.version
            license := license
            risk := classifyLicenseRisk cfg license
            children := []
            vulnerabilities := (vulnerabilities (getIdentifierKey i)).getD []
            issues := iss }) := by
  rw [buildDependencyItem_eq]
  rfl

theorem sumCounts_bumpLicense (m : List (String × Nat)) (k : String) :
    sumCounts (bumpLicense m k) = sumCounts m + 1 := by
  induction m with
  | nil => rfl
  | cons e rest ih =>
    obtain ⟨k', n⟩ := e
    by_cases h : k' = k
    · simp [bumpLicense, h, sumCounts]
      omega
    · simp [bumpLicense, h, sumCounts] at ih ⊢
      omega

/-- Effect of one `calculateLicenseStats` loop iteration on every counter. -/
theorem statsStep_fields (cfg : ClassifierConfig) (s : LicenseStats)
    (d : LicenseDecl) :
    (statsStep cfg s d).total = s.total + 1 ∧
    (statsStep cfg s d).permissive = s.permissive +
      (if classifyLicenseRisk cfg (extractLicense d) = .permissive then 1 else 0) ∧
    (statsStep cfg s d).weakCopyleft = s.weakCopyleft +
      (if classifyLicenseRisk cfg (extractLicense d) = .weakCopyleft then 1 else 0) ∧
    (statsStep cfg s d).strongCopyleft = s.strongCopyleft +
      (if classifyLicenseRisk cfg (extractLicense d) = .strongCopyleft then 1 else 0) ∧
    (statsStep cfg s d).unknown = s.unknown +
      (if classifyLicenseRisk cfg (extractLicense d) = .unknown
          ∨ classifyLicenseRisk cfg (extractLicense d) = .proprietary then 1 else 0) ∧
    sumCounts (statsStep cfg s d).byLicense = sumCounts s.byLicense +
      (if jsTruthy (extractLicense d) then 1 else 0) := by
  cases hc : classifyLicenseRisk cfg (extractLicense d) <;>
    cases ht : jsTruthy (extractLicense d) <;>
      simp [statsStep, hc, ht, sumCounts_bumpLicense]

/-- The bucket counters of the stats fold sum to the element count. -/
theorem foldl_statsStep_sum (cfg : ClassifierConfig) (l : List LicenseDecl)
    (s : LicenseStats) :
    (l.foldl (statsStep cfg) s).permissive
      + (l.foldl (statsStep cfg) s).weakCopyleft
      + (l.foldl (statsStep cfg) s).strongCopyleft
      + (l.foldl (statsStep cfg) s).unknown
      = s.permissive + s.weakCopyleft + s.strongCopyleft + s.unknown + l.length := by
  induction l generalizing s with
  | nil => simp
  | cons d t ih =>
    simp only [List.foldl_cons, List.length_cons]
    rw [ih]
    obtain ⟨-, h2, h3, h4, h5, -⟩ := statsStep_fields cfg s d
    rw [h2, h3, h4, h5]
    cases hc : classifyLicenseRisk cfg (extractLicense d) <;> simp [hc] <;> omega

/-- The `total` counter of the stats fold counts every element. -/
theorem foldl_statsStep_total (cfg : ClassifierConfig) (l : List LicenseDecl)
    (s : LicenseStats) :
    (l.foldl (statsStep cfg) s).total = s.total + l.length := by
  induction l generalizing s with
  | nil => simp
  | cons d t ih =>
    simp only [List.foldl_cons, List.length_cons]
    rw [ih, (statsStep_fields cfg s d).1]
    omega

/-- The `unknown` counter of the stats fold counts exactly the entries whose
classification is `unknown` or `proprietary` (the `default` branch). -/
theorem foldl_statsStep_unknown (cfg : ClassifierConfig) (l : List LicenseDecl)
    (s : LicenseStats) :
    (l.foldl (statsStep cfg) s).unknown = s.unknown +
      l.countP (fun d => classifyLicenseRisk cfg (extractLicense d) = .unknown
        ∨ classifyLicenseRisk cfg (extractLicense d) = .proprietary) := by
  induction l generalizing s with
  | nil => simp
  | cons d t ih =>
    rw [List.foldl_cons, ih]
    obtain ⟨-, -, -, -, h5, -⟩ := statsStep_fields cfg s d
    rw [h5, List.countP_cons]
    by_cases hd : classifyLicenseRisk cfg (extractLicense d) = .unknown
        ∨ classifyLicenseRisk cfg (extractLicense d) = .proprietary
    all_goals simp [hd]
    all_goals omega

/-- The recorded `byLicense` counts of the stats fold sum to the number of
entries with a truthy (present, non-empty) extracted license. -/
theorem foldl_statsStep_sumCounts (cfg : ClassifierConfig)
    (l : List LicenseDecl) (s : LicenseStats) :
    sumCounts (l.foldl (statsStep cfg) s).byLicense =
      sumCounts s.byLicense + l.countP (fun d => jsTruthy (extractLicense d)) := by
  induction l generalizing s with
  | nil => simp
  | cons d t ih =>
    rw [List.foldl_cons, ih]
    obtain ⟨-, -, -, -, -, h6⟩ := statsStep_fields cfg s d
    rw [h6, List.countP_cons]
    cases ht : jsTruthy (extractLicense d)
    all_goals simp [ht]
    all_goals omega

/-! ### Claims -/

/-- C2: `classifyLicenseRisk` returns `unknown` for absent or empty input;
otherwise it tests the license string by substring containment against the
configured lists in the fixed precedence permissive, then weak-copyleft,
then strong-copyleft, the first match winning; if no list matches and the
string case-insensitively contains "proprietary" it returns `proprietary`;
otherwise it returns `unknown`. -/
theorem C2_classify_precedence (cfg : ClassifierConfig) (s : String) :
    classifyLicenseRisk cfg none = .unknown ∧
    classifyLicenseRisk cfg (some "") = .unknown ∧
    (s ≠ "" →
      (cfg.permissiveLicenses.any (fun l => strIncludes s l) = true →
        classifyLicenseRisk cfg (some s) = .permissive) ∧
      (cfg.permissiveLicenses.any (fun l => strIncludes s l) = false →
        cfg.weakCopyleftLicenses.any (fun l => strIncludes s l) = true →
        classifyLicenseRisk cfg (some s) = .weakCopyleft) ∧
      (cfg.permissiveLicenses.any (fun l => strIncludes s l) = false →
        cfg.weakCopyleftLicenses.any (fun l => strIncludes s l) = false →
        cfg.strongCopyleftLicenses.any (fun l => strIncludes s l) = true →
        classifyLicenseRisk cfg (some s) = .strongCopyleft) ∧
      (cfg.permissiveLicenses.any (fun l => strIncludes s l) = false →
        cfg.weakCopyleftLicenses.any (fun l => strIncludes s l) = false →
        cfg.strongCopyleftLicenses.any (fun l => strIncludes s l) = false →
        strIncludes s.toLower "proprietary" = true →
        classifyLicenseRisk cfg (some s) = .proprietary) ∧
      (cfg.permissiveLicenses.any (fun l => strIncludes s l) = false →
        cfg.weakCopyleftLicenses.any (fun l => strIncludes s l) = false →
        cfg.strongCopyleftLicenses.any (fun l => strIncludes s l) = false →
        strIncludes s.toLower "proprietary" = false →
        classifyLicenseRisk cfg (some s) = .unknown)) := by
  refine ⟨rfl, by simp [classifyLicenseRisk, jsTruthy], fun hs => ⟨?_, ?_, ?_, ?_, ?_⟩⟩
  · intro h1
    simp [classifyLicenseRisk, jsTruthy, hs, h1]
  · intro h1 h2
    simp [classifyLicenseRisk, jsTruthy, hs, h1, h2]
  · intro h1 h2 h3
    simp [classifyLicenseRisk, jsTruthy, hs, h1, h2, h3]
  · intro h1 h2 h3 h4
    simp [classifyLicenseRisk, jsTruthy, hs, h1, h2, h3, h4]
  · intro h1 h2 h3 h4
    simp [classifyLicenseRisk, jsTruthy, hs, h1, h2, h3, h4]

/-- Witness for C2 at a concrete input: a compound expression containing a
configured permissive token classifies as permissive (first list wins). -/
theorem C2_classify_precedence_witness :
    classifyLicenseRisk cfgExample (some "MIT OR GPL-3.0-only") = .permissive :=
  ((C2_classify_precedence cfgExample "MIT OR GPL-3.0-only").2.2
    (by decide)).1 (by decide)

/-- C3: `getComplianceStatus` applies, first match winning: strong-copyleft
count > 0 ⇒ `critical` with a message reporting that count; else any issue
or vulnerability ⇒ `issues` with a message reporting both counts; else
unknown count > 0 ⇒ `issues` with a message reporting the unknown count;
otherwise `compliant`. -/
theorem C3_complianceStatus_precedence (cfg : ClassifierConfig)
    (r : ORTResult) :
    ((calculateLicenseStats cfg r).strongCopyleft > 0 →
      (getComplianceStatus cfg r).status = .critical ∧
      (getComplianceStatus cfg r).message =
        toString (calculateLicenseStats cfg r).strongCopyleft
          ++ " strong copyleft license(s) detected") ∧
    ((calculateLicenseStats cfg r).strongCopyleft = 0 →
      ((analyzerIssues r).length > 0 ∨
        (getAllVulnerabilities r.advisor).length > 0) →
      (getComplianceStatus cfg r).status = .issues ∧
      (getComplianceStatus cfg r).message =
        toString (analyzerIssues r).length ++ " issue(s), "
          ++ toString (getAllVulnerabilities r.advisor).length
          ++ " vulnerability(ies) found") ∧
    ((calculateLicenseStats cfg r).strongCopyleft = 0 →
      (analyzerIssues r).length = 0 →
      (getAllVulnerabilities r.advisor).length = 0 →
      (calculateLicenseStats cfg r).unknown > 0 →
      (getComplianceStatus cfg r).status = .issues ∧
      (getComplianceStatus cfg r).message =
        toString (calculateLicenseStats cfg r).unknown
          ++ " package(s) with unknown licenses") ∧
    ((calculateLicenseStats cfg r).strongCopyleft = 0 →
      (analyzerIssues r).length = 0 →
      (getAllVulnerabilities r.advisor).length = 0 →
      (calculateLicenseStats cfg r).unknown = 0 →
      (getComplianceStatus cfg r).status = .compliant ∧
      (getComplianceStatus cfg r).message = "All dependencies are compliant") := by
  refine ⟨?_, ?_, ?_, ?_⟩
  · intro h1
    simp [getComplianceStatus, h1]
  · intro h1 h2
    have hb : ((analyzerIssues r).length > 0
        || (getAllVulnerabilities r.advisor).length > 0) = true := by
      rcases h2 with h | h <;> simp [h]
    simp [getComplianceStatus, h1, hb]
  · intro h1 h2 h3 h4
    simp [getComplianceStatus, h1, h2, h3, h4]
  · intro h1 h2 h3 h4
    simp [getComplianceStatus, h1, h2, h3, h4]

/-- Witness for C3: one GPL-licensed package yields `critical` and a
message reporting the count. -/
theorem C3_complianceStatus_precedence_witness :
    (getComplianceStatus cfgExample resultGPL).status = .critical ∧
    (getComplianceStatus cfgExample resultGPL).message =
      toString (calculateLicenseStats cfgExample resultGPL).strongCopyleft
        ++ " strong copyleft license(s) detected" :=
  (C3_complianceStatus_precedence cfgExample resultGPL).1 (by decide)

/-- C4: the four risk buckets of `calculateLicenseStats` sum to `total`;
entries classified `proprietary` fall into the `unknown` bucket (the
`default` branch); absent `analyzer.result` gives the all-zero stats with
an empty `byLicense` map. -/
theorem C4_licenseStats_buckets (cfg : ClassifierConfig) (r : ORTResult) :
    (calculateLicenseStats cfg r).permissive
      + (calculateLicenseStats cfg r).weakCopyleft
      + (calculateLicenseStats cfg r).strongCopyleft
      + (calculateLicenseStats cfg r).unknown
      = (calculateLicenseStats cfg r).total ∧
    (∀ run, r.analyzer.bind (·.result) = some run →
      (calculateLicenseStats cfg r).total = (allLicenseDecls run).length ∧
      (calculateLicenseStats cfg r).unknown =
        (allLicenseDecls run).countP (fun d =>
          classifyLicenseRisk cfg (extractLicense d) = .unknown
            ∨ classifyLicenseRisk cfg (extractLicense d) = .proprietary)) ∧
    (r.analyzer.bind (·.result) = none →
      calculateLicenseStats cfg r = {}) := by
  cases h : r.analyzer.bind (·.result) with
  | none =>
    refine ⟨by simp [calculateLicenseStats, h], ?_, fun _ => by simp [calculateLicenseStats, h]⟩
    intro run hrun
    cases hrun
  | some run =>
    have hcalc : calculateLicenseStats cfg r =
        (allLicenseDecls run).foldl (statsStep cfg) {} := by
      simp [calculateLicenseStats, h]
    refine ⟨?_, ?_, ?_⟩
    · rw [hcalc, foldl_statsStep_sum, foldl_statsStep_total]
      simp
    · intro run' hrun'
      injection hrun' with he
      subst he
      refine ⟨by rw [hcalc, foldl_statsStep_total]; simp, ?_⟩
      rw [hcalc, foldl_statsStep_unknown]
      simp
    · intro hnone
      cases hnone

/-- Witness for C4: the single-package GPL result has `total` equal to its
entry count and no entry in the `default` (unknown/proprietary) bucket. -/
theorem C4_licenseStats_buckets_witness :
    (calculateLicenseStats cfgExample resultGPL).total
      = (allLicenseDecls runGPL).length ∧
    (calculateLicenseStats cfgExample resultGPL).unknown =
      (allLicenseDecls runGPL).countP (fun d =>
        classifyLicenseRisk cfgExample (extractLicense d) = .unknown
          ∨ classifyLicenseRisk cfgExample (extractLicense d) = .proprietary) :=
  (C4_licenseStats_buckets cfgExample resultGPL).2.1 runGPL (by decide)

/-- C9 counterexample: for a well-formed result holding one package with no
declared licenses, the `byLicense` occurrence counts sum to 0 while `total`
is 1, so the sum does not equal `total`. -/
theorem C9_counterexample :
    sumCounts (calculateLicenseStats cfgExample resultNoLicense).byLicense ≠
      (calculateLicenseStats cfgExample resultNoLicense).total := by
  decide

/-- C9 amended: the `byLicense` occurrence counts sum to the number of
entries whose extracted license is present and non-empty; this equals
`total` exactly when every project and package carries such a license. -/
theorem C9_byLicense_sum (cfg : ClassifierConfig) (r : ORTResult) :
    (∀ run, r.analyzer.bind (·.result) = some run →
      sumCounts (calculateLicenseStats cfg r).byLicense =
        (allLicenseDecls run).countP (fun d => jsTruthy (extractLicense d)) ∧
      ((∀ d ∈ allLicenseDecls run, jsTruthy (extractLicense d)) →
        sumCounts (calculateLicenseStats cfg r).byLicense =
          (calculateLicenseStats cfg r).total)) ∧
    (r.analyzer.bind (·.result) = none →
      sumCounts (calculateLicenseStats cfg r).byLicense = 0) := by
  cases h : r.analyzer.bind (·.result) with
  | none =>
    refine ⟨?_, fun _ => by simp [calculateLicenseStats, h, sumCounts]⟩
    intro run hrun
    cases hrun
  | some run =>
    have hcalc : calculateLicenseStats cfg r =
        (allLicenseDecls run).foldl (statsStep cfg) {} := by
      simp [calculateLicenseStats, h]
    refine ⟨?_, ?_⟩
    · intro run' hrun'
      injection hrun' with he
      subst he
      have hsum : sumCounts (calculateLicenseStats cfg r).byLicense =
          (allLicenseDecls run).countP (fun d => jsTruthy (extractLicense d)) := by
        rw [hcalc, foldl_statsStep_sumCounts]
        simp [sumCounts]
      refine ⟨hsum, fun hall => ?_⟩
      rw [hsum, hcalc, foldl_statsStep_total]
      have : (allLicenseDecls run).countP (fun d => jsTruthy (extractLicense d)) =
          (allLicenseDecls run).length :=
        List.countP_eq_length.mpr hall
      rw [this]
      simp
    · intro hnone
      cases hnone

/-- Witness for C9 (amended): in the GPL example every entry has a license,
so the `byLicense` counts sum to `total`. -/
theorem C9_byLicense_sum_witness :
    sumCounts (calculateLicenseStats cfgExample resultGPL).byLicense =
      (calculateLicenseStats cfgExample resultGPL).total :=
  ((C9_byLicense_sum cfgExample resultGPL).1 runGPL (by decide)).2 (by decide)

/-- C1: `buildDependencyItem` expands a node by recursing into its child
references (each recursive call receiving the `DependencyNode`-like object
built from the reference), carrying a per-branch visited set seeded with
every ancestor key on the current root-to-node path; a child whose key is
already in that set is omitted (`none`), never an error. -/
theorem C1_buildDependencyItem_recursion (cfg : ClassifierConfig)
    (packages : String → Option Package)
    (vulnerabilities : String → Option (List Vulnerability))
    (node : DependencyNode) (visited : List String) :
    (buildDependencyItem cfg packages vulnerabilities node visited = none ↔
      getIdentifierKey node.id ∈ visited) ∧
    (getIdentifierKey node.id ∉ visited →
      ∃ item, buildDependencyItem cfg packages vulnerabilities node visited
          = some item ∧
        item.children = node.dependencies.filterMap
          (fun ref => buildDependencyItem cfg packages vulnerabilities
            { id := ref.id, dependencies := [], issues := [] }
            (getIdentifierKey node.id :: visited))) := by
  by_cases h : getIdentifierKey node.id ∈ visited
  · refine ⟨?_, fun hn => absurd h hn⟩
    rw [buildDependencyItem_eq]
    simp [h]
  · refine ⟨?_, fun _ => ?_⟩
    · rw [buildDependencyItem_eq]
      simp [h]
    · rw [buildDependencyItem_eq]
      rw [if_neg h]
      exact ⟨_, rfl, rfl⟩

/-- Witness for C1: the node A of the synthetic cycle, from an empty path,
expands to an item whose children are the recursion over its references
with the visited set seeded with A's key. -/
theorem C1_buildDependencyItem_recursion_witness :
    ∃ item, buildDependencyItem cfgExample (buildPackageMap [])
        (buildVulnerabilityMap none) nodeCycleA [] = some item ∧
      item.children = nodeCycleA.dependencies.filterMap
        (fun ref => buildDependencyItem cfgExample (buildPackageMap [])
          (buildVulnerabilityMap none)
          { id := ref.id, dependencies := [], issues := [] }
          (getIdentifierKey nodeCycleA.id :: [])) :=
  (C1_buildDependencyItem_recursion cfgExample (buildPackageMap [])
    (buildVulnerabilityMap none) nodeCycleA []).2 (by simp)

/-- C5: on the synthetic cyclic graph A → B, B → A the tree builder
terminates with this finite tree; a self-referencing node is built with the
cycle edge silently pruned; in general a node whose key is already on the
current branch yields `none` rather than an error or divergence. -/
theorem C5_cycle_pruned :
    buildDependencyTree cfgExample resultCycle =
      [{ id := idOf "P", label := "P@1.0.0 (Project)", license := none, risk := .unknown,
         children := [
           { id := ⟨"", "", "dependencies", ""⟩, label := "dependencies (2)", license := none,
             risk := .unknown,
             children := [
               { id := idOf "A", label := "A@1.0.0", license := none, risk := .unknown,
                 children := [{ id := idOf "B", label := "B@1.0.0", license := none,
                                risk := .unknown, children := [], vulnerabilities := [],
                                issues := [] }],
                 vulnerabilities := [], issues := [] },
               { id := idOf "B", label := "B@1.0.0", license := none, risk := .unknown,
                 children := [{ id := idOf "A", label := "A@1.0.0", license := none,
                                risk := .unknown, children := [], vulnerabilities := [],
                                issues := [] }],
                 vulnerabilities := [], issues := [] }],
             vulnerabilities := [], issues := [] }],
         vulnerabilities := [], issues := [] }] ∧
    buildDependencyItem cfgExample (buildPackageMap []) (buildVulnerabilityMap none)
        nodeSelfLoop [] =
      some { id := idOf "A", label := "A@1.0.0", license := none, risk := .unknown,
             children := [], vulnerabilities := [], issues := [] } ∧
    (∀ (cfg : ClassifierConfig) (packages : String → Option Package)
        (vulnerabilities : String → Option (List Vulnerability))
        (node : DependencyNode) (visited : List String),
      getIdentifierKey node.id ∈ visited →
      buildDependencyItem cfg packages vulnerabilities node visited = none) := by
  refine ⟨?_, ?_, ?_⟩
  · have hA : buildDependencyItem cfgExample (buildPackageMap []) (buildVulnerabilityMap none)
        nodeCycleA [] =
        some { id := idOf "A", label := "A@1.0.0", license := none, risk := .unknown,
               children := [{ id := idOf "B", label := "B@1.0.0", license := none,
                              risk := .unknown, children := [], vulnerabilities := [],
                              issues := [] }],
               vulnerabilities := [], issues := [] } := by
      rw [buildDependencyItem_eq]
      rw [if_neg (by simp)]
      simp only [nodeCycleA, idOf, List.filterMap_cons, List.filterMap_nil]
      rw [buildDependencyItem_leaf]
      rw [if_neg (by decide)]
      rfl
    have hB : buildDependencyItem cfgExample (buildPackageMap []) (buildVulnerabilityMap none)
        nodeCycleB [] =
        some { id := idOf "B", label := "B@1.0.0", license := none, risk := .unknown,
               children := [{ id := idOf "A", label := "A@1.0.0", license := none,
                              risk := .unknown, children := [], vulnerabilities := [],
                              issues := [] }],
               vulnerabilities := [], issues := [] } := by
      rw [buildDependencyItem_eq]
      rw [if_neg (by simp)]
      simp only [nodeCycleB, idOf, List.filterMap_cons, List.filterMap_nil]
      rw [buildDependencyItem_leaf]
      rw [if_neg (by decide)]
      rfl
    simp only [buildDependencyTree, resultCycle, runCycle, Option.some_bind, Option.getD_some,
      buildProjectItem, projCycle, List.map_cons, List.map_nil, List.filterMap_cons,
      List.filterMap_nil, hA, hB]
    rfl
  · rw [buildDependencyItem_eq]
    rw [if_neg (by simp)]
    simp only [nodeSelfLoop, idOf, List.filterMap_cons, List.filterMap_nil]
    rw [buildDependencyItem_leaf]
    rw [if_pos (by decide)]
    rfl
  · intro cfg packages vulnerabilities node visited h
    rw [buildDependencyItem_eq]
    simp [h]

/-- Witness for C5: the pruning clause applied to the self-loop node with
its own key already on the branch. -/
theorem C5_cycle_pruned_witness :
    buildDependencyItem cfgExample (buildPackageMap []) (buildVulnerabilityMap none)
      nodeSelfLoop [getIdentifierKey (idOf "A")] = none :=
  (C5_cycle_pruned).2.2 cfgExample (buildPackageMap []) (buildVulnerabilityMap none)
    nodeSelfLoop [getIdentifierKey (idOf "A")] (by decide)

/-- Substring fact used by the loader contract: a string ends with any of
its own suffixes. -/
theorem strIncludes_append_left (p e : String) : strIncludes (p ++ e) e = true := by
  have h : e.data <:+: p.data ++ e.data := ⟨p.data, [], by simp⟩
  simp [strIncludes, h]

/-- C6: for any diamond (siblings B and C both referencing D), both sibling
subtrees are built and each contains its own item for D — sibling
recursions receive their own copy of the parent's visited set, so D is not
deduplicated across branches. -/
theorem C6_diamond_preserved (cfg : ClassifierConfig)
    (packages : String → Option Package)
    (vulnerabilities : String → Option (List Vulnerability))
    (b c d : Identifier) (issB issC : List Issue) (visited : List String)
    (hb : getIdentifierKey b ∉ visited) (hc : getIdentifierKey c ∉ visited)
    (hdb : getIdentifierKey d ≠ getIdentifierKey b)
    (hdc : getIdentifierKey d ≠ getIdentifierKey c)
    (hdv : getIdentifierKey d ∉ visited) :
    ∃ itemB itemC itemD,
      buildDependencyItem cfg packages vulnerabilities
        { id := b, dependencies := [⟨d⟩], issues := issB } visited = some itemB ∧
      buildDependencyItem cfg packages vulnerabilities
        { id := c, dependencies := [⟨d⟩], issues := issC } visited = some itemC ∧
      itemB.children = [itemD] ∧ itemC.children = [itemD] ∧
      itemD.id = (match packages (getIdentifierKey d) with
        | some p => p.id
        | none => d) := by
  have hmemB : getIdentifierKey d ∉ getIdentifierKey b :: visited := by
    simp [List.mem_cons, hdb, hdv]
  have hmemC : getIdentifierKey d ∉ getIdentifierKey c :: visited := by
    simp [List.mem_cons, hdc, hdv]
  obtain ⟨itemD, hD⟩ : ∃ i, buildDependencyItem cfg packages vulnerabilities
      { id := d, dependencies := [], issues := [] }
      (getIdentifierKey b :: visited) = some i := by
    rw [buildDependencyItem_leaf, if_neg hmemB]
    exact ⟨_, rfl⟩
  have hD' : buildDependencyItem cfg packages vulnerabilities
      { id := d, dependencies := [], issues := [] }
      (getIdentifierKey c :: visited) = some itemD := by
    rw [buildDependencyItem_leaf, if_neg hmemC]
    rw [buildDependencyItem_leaf, if_neg hmemB] at hD
    exact hD
  obtain ⟨itemB, hB, hchB⟩ : ∃ i, buildDependencyItem cfg packages vulnerabilities
      { id := b, dependencies := [⟨d⟩], issues := issB } visited = some i ∧
      i.children = [itemD] := by
    rw [buildDependencyItem_eq, if_neg hb]
    refine ⟨_, rfl, ?_⟩
    simp only [List.filterMap_cons, List.filterMap_nil, hD]
  obtain ⟨itemC, hC, hchC⟩ : ∃ i, buildDependencyItem cfg packages vulnerabilities
      { id := c, dependencies := [⟨d⟩], issues := issC } visited = some i ∧
      i.children = [itemD] := by
    rw [buildDependencyItem_eq, if_neg hc]
    refine ⟨_, rfl, ?_⟩
    simp only [List.filterMap_cons, List.filterMap_nil, hD']
  refine ⟨itemB, itemC, itemD, hB, hC, hchB, hchC, ?_⟩
  rw [buildDependencyItem_leaf, if_neg hmemB] at hD
  injection hD with h
  rw [← h]

/-- Witness for C6 on concrete identifiers B, C, D. -/
theorem C6_diamond_preserved_witness :
    ∃ itemB itemC itemD,
      buildDependencyItem cfgExample (buildPackageMap []) (buildVulnerabilityMap none)
        { id := idOf "B", dependencies := [⟨idOf "D"⟩], issues := [] } [] = some itemB ∧
      buildDependencyItem cfgExample (buildPackageMap []) (buildVulnerabilityMap none)
        { id := idOf "C", dependencies := [⟨idOf "D"⟩], issues := [] } [] = some itemC ∧
      itemB.children = [itemD] ∧ itemC.children = [itemD] ∧
      itemD.id = (match buildPackageMap [] (getIdentifierKey (idOf "D")) with
        | some p => p.id
        | none => idOf "D") :=
  C6_diamond_preserved cfgExample (buildPackageMap []) (buildVulnerabilityMap none)
    (idOf "B") (idOf "C") (idOf "D") [] [] []
    (by simp) (by simp) (by decide) (by decide) (by simp)

/-- C7 counterexample: for license fields whose processed SPDX expression
is present but empty (and with raw list `["MIT"]`), the extracted license
is not the processed expression, refuting "the processed SPDX expression
when present". -/
theorem C7_counterexample :
    declEmptySpdx.declared_licenses_processed.spdx_expression = some "" ∧
    extractLicense declEmptySpdx ≠
      declEmptySpdx.declared_licenses_processed.spdx_expression := by
  decide

/-- C7 amended: the extracted license is the processed SPDX expression when
present and non-empty; otherwise the raw declared licenses joined with
" OR " when that list is non-empty; otherwise absent — and the same
`extractLicense` is used by the tree builder (project items and resolved
dependency items) and by the statistics aggregator. -/
theorem C7_extractLicense_precedence (cfg : ClassifierConfig)
    (pkg : LicenseDecl) (packages : String → Option Package)
    (vulnerabilities : String → Option (List Vulnerability))
    (node : DependencyNode) (visited : List String) (project : Project) :
    (jsTruthy pkg.declared_licenses_processed.spdx_expression = true →
      extractLicense pkg = pkg.declared_licenses_processed.spdx_expression) ∧
    (jsTruthy pkg.declared_licenses_processed.spdx_expression = false →
      pkg.declared_licenses ≠ [] →
      extractLicense pkg = some (String.intercalate " OR " pkg.declared_licenses)) ∧
    (jsTruthy pkg.declared_licenses_processed.spdx_expression = false →
      pkg.declared_licenses = [] →
      extractLicense pkg = none) ∧
    (buildProjectItem cfg project packages vulnerabilities).license
      = extractLicense project.licenseDecl ∧
    (∀ p, packages (getIdentifierKey node.id) = some p →
      getIdentifierKey node.id ∉ visited →
      ∃ item, buildDependencyItem cfg packages vulnerabilities node visited
          = some item ∧
        item.license = extractLicense p.licenseDecl) ∧
    (∀ s : LicenseStats, (statsStep cfg s pkg).byLicense =
      (if jsTruthy (extractLicense pkg) then
        bumpLicense s.byLicense ((extractLicense pkg).getD "")
      else s.byLicense)) := by
  refine ⟨?_, ?_, ?_, rfl, ?_, ?_⟩
  · intro h1
    simp [extractLicense, h1]
  · intro h1 h2
    have hl : pkg.declared_licenses.length > 0 := List.length_pos.mpr h2
    simp [extractLicense, h1, hl]
  · intro h1 h2
    simp [extractLicense, h1, h2]
  · intro p hp hvis
    rw [buildDependencyItem_eq, if_neg hvis]
    refine ⟨_, rfl, ?_⟩
    simp only [hp]
  · intro s
    cases hc : classifyLicenseRisk cfg (extractLicense pkg) <;>
      cases ht : jsTruthy (extractLicense pkg) <;>
        simp [statsStep, hc, ht]

/-- Witness for C7 (amended) at the GPL package fixture: the non-empty
processed expression wins. -/
theorem C7_extractLicense_precedence_witness :
    extractLicense pkgGPL.licenseDecl
      = pkgGPL.licenseDecl.declared_licenses_processed.spdx_expression :=
  (C7_extractLicense_precedence cfgExample pkgGPL.licenseDecl (buildPackageMap [])
    (buildVulnerabilityMap none) nodeSelfLoop [] projCycle).1 (by decide)

/-- C8: the loader returns the fully parsed result exactly when reading and
JSON parsing both succeed (a returned value with optional sections absent
is such a full parse, never a partial one), and otherwise fails with a
message that includes the underlying cause. -/
theorem C8_parseResultFile_contract (readFile : String → Except String String)
    (jsonParse : String → Except String ORTResult) (filePath : String) :
    (∀ content result, readFile filePath = .ok content →
      jsonParse content = .ok result →
      parseResultFile readFile jsonParse filePath = .ok result) ∧
    (∀ e, readFile filePath = .error e →
      parseResultFile readFile jsonParse filePath =
        .error ("Failed to parse ORT result: " ++ e) ∧
      strIncludes ("Failed to parse ORT result: " ++ e) e = true) ∧
    (∀ content e, readFile filePath = .ok content → jsonParse content = .error e →
      parseResultFile readFile jsonParse filePath =
        .error ("Failed to parse ORT result: " ++ e) ∧
      strIncludes ("Failed to parse ORT result: " ++ e) e = true) ∧
    (∀ result, parseResultFile readFile jsonParse filePath = .ok result →
      ∃ content, readFile filePath = .ok content ∧ jsonParse content = .ok result) := by
  refine ⟨?_, ?_, ?_, ?_⟩
  · intro content result h1 h2
    simp [parseResultFile, h1, h2]
  · intro e h1
    exact ⟨by simp [parseResultFile, h1], strIncludes_append_left _ _⟩
  · intro content e h1 h2
    exact ⟨by simp [parseResultFile, h1, h2], strIncludes_append_left _ _⟩
  · intro result h
    cases hr : readFile filePath with
    | error e =>
      simp [parseResultFile, hr] at h
    | ok content =>
      cases hj : jsonParse content with
      | error e =>
        simp [parseResultFile, hr, hj] at h
      | ok r2 =>
        simp [parseResultFile, hr, hj] at h
        exact ⟨content, rfl, by rw [hj, h]⟩

/-- Witness for C8: a loader whose file read and JSON parse both succeed
returns the full result, here one with every optional section absent. -/
theorem C8_parseResultFile_contract_witness :
    parseResultFile (fun _ => .ok "\x7b\x7d") (fun _ => .ok ({} : ORTResult))
      "analyzer-result.json" = .ok ({} : ORTResult) :=
  (C8_parseResultFile_contract (fun _ => .ok "\x7b\x7d") (fun _ => .ok {})
    "analyzer-result.json").1 "\x7b\x7d" {} rfl rfl

/-- C10: scope grouping items carry no license, `unknown` risk and empty
vulnerability/issue lists; project root items carry no issues; a dependency
item's issues are exactly its node's own issues. -/
theorem C10_issue_attachment (cfg : ClassifierConfig) (project : Project)
    (packages : String → Option Package)
    (vulnerabilities : String → Option (List Vulnerability)) :
    (buildProjectItem cfg project packages vulnerabilities).issues = [] ∧
    (∀ scopeItem ∈ (buildProjectItem cfg project packages vulnerabilities).children,
      scopeItem.license = none ∧ scopeItem.risk = .unknown ∧
      scopeItem.vulnerabilities = [] ∧ scopeItem.issues = []) ∧
    (∀ (node : DependencyNode) (visited : List String) (item : DependencyTreeItem),
      buildDependencyItem cfg packages vulnerabilities node visited = some item →
      item.issues = node.issues) := by
  refine ⟨rfl, ?_, ?_⟩
  · intro scopeItem hmem
    cases hscope : project.scope_dependencies with
    | none =>
      simp [buildProjectItem, hscope] at hmem
    | some scopes =>
      simp only [buildProjectItem, hscope, List.mem_map] at hmem
      obtain ⟨scope, -, rfl⟩ := hmem
      exact ⟨rfl, rfl, rfl, rfl⟩
  · intro node visited item h
    by_cases hv : getIdentifierKey node.id ∈ visited
    · rw [buildDependencyItem_eq, if_pos hv] at h
      cases h
    · rw [buildDependencyItem_eq, if_neg hv] at h
      injection h with h
      rw [← h]

/-- Witness for C10: a dependency node carrying one analyzer issue builds
to an item holding exactly that issue. -/
theorem C10_issue_attachment_witness :
    ({ id := idOf "A", label := "A@1.0.0", license := none, risk := .unknown,
       children := [], vulnerabilities := [],
       issues := [⟨"", "", "m", ""⟩] } : DependencyTreeItem).issues
      = ({ id := idOf "A", dependencies := [],
           issues := [⟨"", "", "m", ""⟩] } : DependencyNode).issues :=
  (C10_issue_attachment cfgExample { id := idOf "P" } (buildPackageMap [])
    (buildVulnerabilityMap none)).2.2
    { id := idOf "A", dependencies := [], issues := [⟨"", "", "m", ""⟩] } [] _
    (by rw [buildDependencyItem_leaf]; rw [if_neg (by simp)]; rfl)

end ORTInsight
